import Mathlib

/-!
Shallow embedding of the generic scraping/analysis pipeline of the
automate-anything repository:

* the storage schema (`src/src/models/tables.py`): `Source`, `ScrapedData`,
  `ProcessedData`, `ScrapingJob`;
* the `ScrapingOrchestrator` (`src/src/services/scraping_orchestrator.py`);
* the `AnalysisOrchestrator` (`src/src/services/analysis_orchestrator.py`);
* the OpenHPI public scraper module's job lifecycle
  (`src/src/modules/openhpi/public_scraper.py`, `scrape_and_save`).

Python `db.query(...)` calls become list searches over an explicit `Store`
record; Python exceptions become `Except PyError`; database timestamps become
values of a logical clock carried in the store.  Scraper and analyzer plugin
functions are modelled as store transformers that either return a value or
raise, exactly as the orchestrators observe them.
-/

namespace AutomateAnything

/-- Python `ValueError(msg)` — the only exception type the orchestrators
themselves raise; module exceptions are modelled through the same type. -/
inductive PyError where
  | valueError (msg : String)
  deriving Repr, DecidableEq

/-- The `sources` table (`tables.py`, class `Source`). -/
structure Source where
  id : Nat
  name : String
  url : String
  source_type : String
  module_name : String
  is_active : Bool
  last_scraped_at : Option Nat
  deriving Repr, DecidableEq

/-- The `scraped_data` table (`tables.py`, class `ScrapedData`). -/
structure ScrapedData where
  id : Nat
  source_id : Nat
  url : String
  raw_html : Option String
  scraped_at : Nat
  status_code : Nat
  content_type : String
  deriving Repr, DecidableEq

/-- The module-specific JSON blob written into `ProcessedData.data_metadata`
by the OpenHPI public scraper (keys `course_id`, `url`, `language`,
`status`). -/
structure DataMetadata where
  course_id : Option String
  url : Option String
  language : Option String
  status : Option String
  deriving Repr, DecidableEq

/-- The `processed_data` table (`tables.py`, class `ProcessedData`).
`processor_module` is a nullable column, hence `Option String`. -/
structure ProcessedData where
  id : Nat
  scraped_data_id : Nat
  title : Option String
  content_text : Option String
  summary : Option String
  data_metadata : Option DataMetadata
  processor_module : Option String
  processed_at : Nat
  deriving Repr, DecidableEq

/-- The `scraping_jobs` table (`tables.py`, class `ScrapingJob`).
`job_metadata` is the JSON blob `{'source_id': ...}` written by the
OpenHPI scraper. -/
structure ScrapingJob where
  id : Nat
  job_type : String
  status : String
  started_at : Nat
  completed_at : Option Nat
  records_processed : Nat
  error_message : Option String
  job_metadata_source_id : Option Nat
  deriving Repr, DecidableEq

/-- The database session's view of the four tables, plus a logical clock
standing in for `utcnow()`. -/
structure Store where
  sources : List Source
  scraped_data : List ScrapedData
  processed_data : List ProcessedData
  scraping_jobs : List ScrapingJob
  clock : Nat
  deriving Repr, DecidableEq

/-- `db.query(Source).filter_by(id=source_id).first()`. -/
def find_source (db : Store) (source_id : Nat) : Option Source :=
  db.sources.find? (fun s => s.id == source_id)

/-- `db.query(ProcessedData).filter_by(id=processed_data_id).first()`. -/
def find_processed (db : Store) (processed_data_id : Nat) : Option ProcessedData :=
  db.processed_data.find? (fun p => p.id == processed_data_id)

/-! ## Registries

Both orchestrators keep an in-memory `Dict[str, Callable]`.  A Python dict is
modelled as an insertion-ordered association list with unique keys:
assignment updates in place when the key is present and appends otherwise,
which is exactly Python's `d[k] = v`. -/

/-- A `Dict[str, F]` as an insertion-ordered association list. -/
abbrev Registry (F : Type) : Type := List (String × F)

/-- Python dict assignment `d[k] = v`: overwrite in place if `k` is already a
key, else append a new entry (keys keep first-insertion order). -/
def dict_set {F : Type} (d : Registry F) (k : String) (v : F) : Registry F :=
  if (List.map Prod.fst d).contains k then
    List.map (fun p => if p.1 = k then (k, v) else p) d
  else
    d ++ [(k, v)]

/-- Python `d.get(k)`: the value stored under `k`, if any. -/
def dict_get {F : Type} (d : Registry F) (k : String) : Option F :=
  (List.find? (fun p => p.1 == k) d).map Prod.snd

/-- Python `list(d.keys())`. -/
def dict_keys {F : Type} (d : Registry F) : List String :=
  List.map Prod.fst d

/-- `ScrapingOrchestrator.register_scraper`: `self._scrapers[module_name] = scraper_func`. -/
def register_scraper {F : Type} (reg : Registry F) (module_name : String) (scraper_func : F) :
    Registry F :=
  dict_set reg module_name scraper_func

/-- `ScrapingOrchestrator.get_scraper`: `self._scrapers.get(module_name)`. -/
def get_scraper {F : Type} (reg : Registry F) (module_name : String) : Option F :=
  dict_get reg module_name

/-- `ScrapingOrchestrator.list_available_scrapers`: `list(self._scrapers.keys())`. -/
def list_available_scrapers {F : Type} (reg : Registry F) : List String :=
  dict_keys reg

/-- `AnalysisOrchestrator.register_analyzer`: `self._analyzers[module_name] = analyzer_func`. -/
def register_analyzer {F : Type} (reg : Registry F) (module_name : String) (analyzer_func : F) :
    Registry F :=
  dict_set reg module_name analyzer_func

/-- `AnalysisOrchestrator.get_analyzer`: `self._analyzers.get(module_name)`. -/
def get_analyzer {F : Type} (reg : Registry F) (module_name : String) : Option F :=
  dict_get reg module_name

/-- `AnalysisOrchestrator.list_available_analyzers`: `list(self._analyzers.keys())`. -/
def list_available_analyzers {F : Type} (reg : Registry F) : List String :=
  dict_keys reg

/-- `self._analyzers.get(module_name)` where `module_name: Optional[str]` may
be Python `None`; the dict is keyed by `str`, so `None` never hits. -/
def get_analyzer_opt {F : Type} (reg : Registry F) (module_name : Option String) : Option F :=
  match module_name with
  | none => none
  | some m => get_analyzer reg m

/-! ## Error messages (the exact f-strings of the source) -/

/-- Python `repr` of a plain string inside an f-string rendering of a list. -/
def py_quote (s : String) : String := "'" ++ s ++ "'"

/-- How a Python `list[str]` renders inside an f-string: `['a', 'b']`. -/
def py_list_repr (l : List String) : String :=
  "[" ++ String.intercalate ", " (List.map py_quote l) ++ "]"

/-- How a Python `Optional[str]` renders inside an f-string (`None` for null). -/
def py_opt_str (m : Option String) : String :=
  match m with
  | none => "None"
  | some s => s

/-- `f"Source with id {source_id} not found"`. -/
def source_not_found_msg (source_id : Nat) : String :=
  "Source with id " ++ toString source_id ++ " not found"

/-- `f"Source {source.name} is not active"`. -/
def source_inactive_msg (name : String) : String :=
  "Source " ++ name ++ " is not active"

/-- `f"No scraper registered for module '{...}'. Available: {...}"`. -/
def no_scraper_msg (module_name : String) (available : List String) : String :=
  "No scraper registered for module '" ++ module_name ++ "'. Available: "
    ++ py_list_repr available

/-- `f"Processed data with id {processed_data_id} not found"`. -/
def processed_not_found_msg (processed_data_id : Nat) : String :=
  "Processed data with id " ++ toString processed_data_id ++ " not found"

/-- `f"No analyzer registered for module '{...}'. Available: {...}"`. -/
def no_analyzer_msg (module_name : Option String) (available : List String) : String :=
  "No analyzer registered for module '" ++ py_opt_str module_name ++ "'. Available: "
    ++ py_list_repr available

/-! ## ScrapingOrchestrator.scrape_source -/

/-- A registered scraper plugin: `(db, source_id) -> Dict`, modelled as a
store transformer producing a result of type `β` or raising. -/
def ScraperFn (β : Type) : Type := Store → Nat → Except PyError β × Store

/-- `ScrapingOrchestrator.scrape_source` (lines 71–109).  The final
`try/except` only logs and re-raises, so the module call's outcome passes
through unchanged. -/
def scrape_source {β : Type} (reg : Registry (ScraperFn β)) (db : Store) (source_id : Nat) :
    Except PyError β × Store :=
  match find_source db source_id with
  | none => (.error (.valueError (source_not_found_msg source_id)), db)
  | some source =>
    if !source.is_active then
      (.error (.valueError (source_inactive_msg source.name)), db)
    else
      match get_scraper reg source.module_name with
      | none =>
          (.error (.valueError (no_scraper_msg source.module_name
            (list_available_scrapers reg))), db)
      | some scraper_func => scraper_func db source_id

/-! ## AnalysisOrchestrator.analyze_data -/

/-- A registered analyzer plugin: `(db, processed_data_id) -> Dict`. -/
def AnalyzerFn (α : Type) : Type := Store → Nat → Except PyError α × Store

/-- Python truthiness of an `Optional[str]`: `None` and `""` are falsy. -/
def py_truthy_opt_str (m : Option String) : Bool :=
  match m with
  | none => false
  | some s => !s.isEmpty

/-- Lines 86–94 of `analysis_orchestrator.py`: `if analyzer_module:` use the
override, else use the row's `processor_module`. -/
def resolve_module_name (analyzer_module : Option String) (processor_module : Option String) :
    Option String :=
  if py_truthy_opt_str analyzer_module then analyzer_module else processor_module

/-- `AnalysisOrchestrator.analyze_data` (lines 62–113).  The final
`try/except` only logs and re-raises. -/
def analyze_data {α : Type} (reg : Registry (AnalyzerFn α)) (db : Store)
    (processed_data_id : Nat) (analyzer_module : Option String) :
    Except PyError α × Store :=
  match find_processed db processed_data_id with
  | none => (.error (.valueError (processed_not_found_msg processed_data_id)), db)
  | some processed =>
    let module_name := resolve_module_name analyzer_module processed.processor_module
    match get_analyzer_opt reg module_name with
    | none =>
        (.error (.valueError (no_analyzer_msg module_name
          (list_available_analyzers reg))), db)
    | some analyzer_func => analyzer_func db processed_data_id

/-! ## AnalysisOrchestrator.bulk_analyze -/

/-- One entry of the `results` list: `{'processed_data_id': ..., 'result': ...}`. -/
structure BulkItemResult (α : Type) where
  processed_data_id : Nat
  result : α
  deriving Repr, DecidableEq

/-- One entry of the `errors` list: `{'processed_data_id': ..., 'error': str(e)}`. -/
structure BulkItemError where
  processed_data_id : Nat
  error : String
  deriving Repr, DecidableEq

/-- The dict returned by `bulk_analyze`.  The source returns two distinct
dict shapes: the zero-item early return carries only `success`, `message`
and `analyzed_count`, while the full summary carries `success`, `source_id`,
`source_name`, `total_items`, `analyzed_count`, `error_count`, `results`
and `errors`. -/
inductive BulkSummary (α : Type) where
  | empty_summary (success : Bool) (message : String) (analyzed_count : Nat)
  | full_summary (success : Bool) (source_id : Nat) (source_name : String)
      (total_items : Nat) (analyzed_count : Nat) (error_count : Nat)
      (results : List (BulkItemResult α)) (errors : List BulkItemError)
  deriving Repr, DecidableEq

/-- The `success` key (present in both dict shapes). -/
def BulkSummary.success_field {α : Type} : BulkSummary α → Bool
  | .empty_summary s _ _ => s
  | .full_summary s _ _ _ _ _ _ _ => s

/-- The `analyzed_count` key (present in both dict shapes). -/
def BulkSummary.analyzed_count_field {α : Type} : BulkSummary α → Nat
  | .empty_summary _ _ n => n
  | .full_summary _ _ _ _ n _ _ _ => n

/-- The `error_count` key; `none` when the dict has no such key (the
zero-item early return omits it). -/
def BulkSummary.error_count_field {α : Type} : BulkSummary α → Option Nat
  | .empty_summary _ _ _ => none
  | .full_summary _ _ _ _ _ e _ _ => some e

/-- The `total_items` key; `none` when the dict has no such key. -/
def BulkSummary.total_items_field {α : Type} : BulkSummary α → Option Nat
  | .empty_summary _ _ _ => none
  | .full_summary _ _ _ t _ _ _ _ => some t

/-- The SQLAlchemy query of `bulk_analyze`: every `ProcessedData` row whose
parent `ScrapedData` row belongs to the given source
(`ProcessedData.scraped_data.has(source_id=source_id)`). -/
def processed_items_for_source (db : Store) (source_id : Nat) : List ProcessedData :=
  db.processed_data.filter (fun p =>
    db.scraped_data.any (fun sd => sd.id == p.scraped_data_id && sd.source_id == source_id))

/-- The `for item in processed_items:` loop of `bulk_analyze`: each item is
passed to `analyze_data`; successes go to `results`, caught exceptions go to
`errors` as `str(e)`.  Returns `(results, errors, db)` with the store
threaded through the per-item calls. -/
def bulk_loop {α : Type} (reg : Registry (AnalyzerFn α)) (analyzer_module : Option String) :
    List ProcessedData → Store → List (BulkItemResult α) × List BulkItemError × Store
  | [], db => ([], [], db)
  | item :: rest, db =>
    match analyze_data reg db item.id analyzer_module with
    | (.ok r, db1) =>
      let out := bulk_loop reg analyzer_module rest db1
      (⟨item.id, r⟩ :: out.1, out.2.1, out.2.2)
    | (.error (.valueError m), db1) =>
      let out := bulk_loop reg analyzer_module rest db1
      (out.1, ⟨item.id, m⟩ :: out.2.1, out.2.2)

/-- `AnalysisOrchestrator.bulk_analyze` (lines 115–178). -/
def bulk_analyze {α : Type} (reg : Registry (AnalyzerFn α)) (db : Store)
    (source_id : Nat) (analyzer_module : Option String) :
    Except PyError (BulkSummary α) × Store :=
  match find_source db source_id with
  | none => (.error (.valueError (source_not_found_msg source_id)), db)
  | some source =>
    let processed_items := processed_items_for_source db source_id
    if processed_items.isEmpty then
      (.ok (.empty_summary true "No processed data found for this source" 0), db)
    else
      let out := bulk_loop reg analyzer_module processed_items db
      (.ok (.full_summary true source_id source.name processed_items.length
        out.1.length out.2.1.length out.1 out.2.1), out.2.2)

/-! ## OpenHPI public scraper module (`public_scraper.py`)

The network fetch (`requests` + HTML parsing) is the only non-deterministic
part of `scrape_and_save`; its outcome is passed in as a parameter: either an
exception message, or the raw HTML plus the list of course dicts that
`scrape_courses_page` would parse out of it.  Everything after the fetch is
embedded from the source. -/

/-- One course dict produced by `scrape_courses_page`: `title` and
`description` are always set (with fallback text), the rest only when the
corresponding tag is found. -/
structure Course where
  title : String
  description : String
  url : Option String
  course_id : Option String
  language : Option String
  status : Option String
  deriving Repr, DecidableEq

/-- The dict returned by `scrape_and_save` on success. -/
structure ScrapeSaveResult where
  success : Bool
  courses_count : Nat
  processed_records : Nat
  scraped_data_id : Nat
  job_id : Nat
  deriving Repr, DecidableEq

/-- The dict returned by `save_to_generic_tables`. -/
structure SaveResult where
  scraped_data_id : Nat
  processed_records : Nat
  deriving Repr, DecidableEq

/-- Outcome of the network/parse phase: raw HTML and parsed courses, or the
message of the exception it raised. -/
abbrev FetchOutcome : Type := Except String (String × List Course)

/-- Fresh autoincrement primary key for `scraping_jobs`. -/
def next_job_id (db : Store) : Nat :=
  List.foldr Nat.max 0 (List.map ScrapingJob.id db.scraping_jobs) + 1

/-- Fresh autoincrement primary key for `scraped_data`. -/
def next_scraped_id (db : Store) : Nat :=
  List.foldr Nat.max 0 (List.map ScrapedData.id db.scraped_data) + 1

/-- Fresh autoincrement primary key for `processed_data`. -/
def next_processed_id (db : Store) : Nat :=
  List.foldr Nat.max 0 (List.map ProcessedData.id db.processed_data) + 1

/-- The `ScrapingJob(...)` constructed at the start of `scrape_and_save`:
`status="running"`, `started_at=utcnow()`, metadata `{'source_id': ...}`. -/
def start_job (db : Store) (source_id : Nat) : ScrapingJob :=
  { id := next_job_id db
    job_type := "openhpi_public_scrape"
    status := "running"
    started_at := db.clock
    completed_at := none
    records_processed := 0
    error_message := none
    job_metadata_source_id := some source_id }

/-- `self.db.add(job); self.db.commit()`: append the row and advance the
clock past the `utcnow()` call that stamped it. -/
def add_job (db : Store) (j : ScrapingJob) : Store :=
  { db with scraping_jobs := db.scraping_jobs ++ [j], clock := db.clock + 1 }

/-- In-place mutation of the job row with the given primary key. -/
def update_job (db : Store) (job_id : Nat) (f : ScrapingJob → ScrapingJob) : Store :=
  { db with scraping_jobs :=
      db.scraping_jobs.map (fun j => if j.id = job_id then f j else j) }

/-- The `ProcessedData(...)` row `save_to_generic_tables` creates for one
course dict (`processor_module='openhpi_public'`, summary truncated to 200
characters when the description is truthy). -/
def course_row (base_id : Nat) (sdid : Nat) (now : Nat) (idx : Nat) (course : Course) :
    ProcessedData :=
  { id := base_id + idx
    scraped_data_id := sdid
    title := some course.title
    content_text := some course.description
    summary := if course.description.isEmpty then none
               else some (course.description.take 200)
    data_metadata := some
      { course_id := course.course_id
        url := course.url
        language := course.language
        status := course.status }
    processor_module := some "openhpi_public"
    processed_at := now }

/-- `OpenHPIPublicScraper.save_to_generic_tables` (lines 101–157): one
`ScrapedData` row, one `ProcessedData` row per course, bump the source's
`last_scraped_at`, commit. -/
def save_to_generic_tables (db : Store) (source_id : Nat) (courses_data : List Course)
    (raw_html : String) : SaveResult × Store :=
  let scraped : ScrapedData :=
    { id := next_scraped_id db
      source_id := source_id
      url := "https://open.hpi.de/courses"
      raw_html := some raw_html
      scraped_at := db.clock
      status_code := 200
      content_type := "text/html" }
  let db1 : Store := { db with scraped_data := db.scraped_data ++ [scraped]
                               clock := db.clock + 1 }
  let rows := courses_data.mapIdx (fun idx course =>
    course_row (next_processed_id db1) scraped.id db1.clock idx course)
  let db2 : Store := { db1 with processed_data := db1.processed_data ++ rows
                                clock := db1.clock + 1 }
  let db3 : Store := { db2 with sources := db2.sources.map (fun s =>
      if s.id = source_id then { s with last_scraped_at := some db2.clock } else s)
                                clock := db2.clock + 1 }
  ({ scraped_data_id := scraped.id, processed_records := courses_data.length }, db3)

/-- `OpenHPIPublicScraper.scrape_and_save` (lines 161–219): re-check the
source, create the job in state `running`, run the fetch-and-save body, and
stamp the job `completed` or `failed`. -/
def scrape_and_save (fetch : FetchOutcome) (db : Store) (source_id : Nat) :
    Except PyError ScrapeSaveResult × Store :=
  match find_source db source_id with
  | none => (.error (.valueError (source_not_found_msg source_id)), db)
  | some _ =>
    let job := start_job db source_id
    let db1 := add_job db job
    match fetch with
    | .error e =>
      let db2 := update_job db1 job.id (fun j =>
        { j with status := "failed", completed_at := some db1.clock,
                 error_message := some e })
      (.error (.valueError e), { db2 with clock := db2.clock + 1 })
    | .ok (raw_html, courses_data) =>
      let saved := save_to_generic_tables db1 source_id courses_data raw_html
      let db3 := update_job saved.2 job.id (fun j =>
        { j with status := "completed", completed_at := some saved.2.clock,
                 records_processed := saved.1.processed_records })
      (.ok { success := true
             courses_count := courses_data.length
             processed_records := saved.1.processed_records
             scraped_data_id := saved.1.scraped_data_id
             job_id := job.id },
       { db3 with clock := db3.clock + 1 })

/-! ## Registry algebra

`apply_registrations` replays a whole sequence of `register_scraper` calls on
the freshly constructed (empty) registry; `last_registered` is the
specification-side notion of "the function most recently registered under a
name". -/

/-- Replay a sequence of `register_scraper` calls on an empty registry. -/
def apply_registrations {F : Type} (regs : List (String × F)) : Registry F :=
  regs.foldl (fun d p => register_scraper d p.1 p.2) ([] : Registry F)

/-- The value most recently registered under `name` in a call sequence. -/
def last_registered {F : Type} (regs : List (String × F)) (name : String) : Option F :=
  (regs.reverse.find? (fun p => p.1 == name)).map Prod.snd

lemma find?_map_update {F : Type} (d : List (String × F)) (k name : String) (v : F)
    (hne : name ≠ k) :
    (d.map (fun p => if p.1 = k then (k, v) else p)).find? (fun p => p.1 == name)
      = d.find? (fun p => p.1 == name) := by
  induction d with
  | nil => rfl
  | cons p rest ih =>
    by_cases hp : p.1 = k
    · have h1 : (k == name) = false := beq_eq_false_iff_ne.mpr (Ne.symm hne)
      have h2 : (p.1 == name) = false :=
        beq_eq_false_iff_ne.mpr (fun h => hne (h.symm.trans hp))
      simp [List.find?, hp, h1, h2, ih]
    · by_cases hn : p.1 = name
      · have hb : (p.1 == name) = true := beq_iff_eq.mpr hn
        simp [List.find?, hp, hb]
      · have hb : (p.1 == name) = false := beq_eq_false_iff_ne.mpr hn
        simp [List.find?, hp, hb, ih]

lemma find?_map_update_hit {F : Type} (d : List (String × F)) (k : String) (v : F)
    (hmem : k ∈ d.map Prod.fst) :
    (d.map (fun p => if p.1 = k then (k, v) else p)).find? (fun p => p.1 == k)
      = some (k, v) := by
  induction d with
  | nil => simp at hmem
  | cons p rest ih =>
    by_cases hp : p.1 = k
    · simp [List.find?, hp]
    · have hmem' : k ∈ rest.map Prod.fst := by
        rcases List.mem_map.mp hmem with ⟨q, hq, hqk⟩
        rcases List.mem_cons.mp hq with hq1 | hq2
        · exact absurd (hq1 ▸ hqk) hp
        · exact List.mem_map.mpr ⟨q, hq2, hqk⟩
      have hb : (p.1 == k) = false := beq_eq_false_iff_ne.mpr hp
      simp [List.find?, hp, hb, ih hmem']

lemma dict_get_dict_set {F : Type} (d : Registry F) (k name : String) (v : F) :
    dict_get (dict_set d k v) name
      = if name = k then some v else dict_get d name := by
  unfold dict_set dict_get
  by_cases hmem : k ∈ d.map Prod.fst
  · have hc : (List.map Prod.fst d).contains k = true := List.elem_iff.mpr hmem
    rw [if_pos hc]
    by_cases hnk : name = k
    · subst hnk
      rw [if_pos rfl, find?_map_update_hit d name v hmem]
      rfl
    · rw [if_neg hnk, find?_map_update d k name v hnk]
  · have hc : ¬ ((List.map Prod.fst d).contains k = true) := fun h =>
      hmem (List.elem_iff.mp h)
    rw [if_neg hc, List.find?_append]
    by_cases hnk : name = k
    · subst hnk
      have hdnone : d.find? (fun p => p.1 == name) = none := by
        rw [List.find?_eq_none]
        intro p hp hpk
        exact hmem (List.mem_map.mpr ⟨p, hp, beq_iff_eq.mp (by simpa using hpk)⟩)
      rw [if_pos rfl, hdnone]
      simp [List.find?]
    · have h2 : (((k, v) : String × F).1 == name) = false :=
        beq_eq_false_iff_ne.mpr (Ne.symm hnk)
      rw [if_neg hnk]
      have hsingle : List.find? (fun p => p.1 == name) [(k, v)] = none := by
        simp [List.find?, h2]
      rw [hsingle, Option.or_none]

lemma get_scraper_foldl {F : Type} (regs : List (String × F)) :
    ∀ (d : Registry F) (name : String),
      get_scraper (regs.foldl (fun d p => register_scraper d p.1 p.2) d) name
        = (last_registered regs name).or (get_scraper d name) := by
  induction regs with
  | nil =>
    intro d name
    simp [last_registered, Option.none_or]
  | cons q rest ih =>
    intro d name
    have hstep : List.foldl (fun d p => register_scraper d p.1 p.2) d (q :: rest)
        = List.foldl (fun d p => register_scraper d p.1 p.2)
            (register_scraper d q.1 q.2) rest := rfl
    rw [hstep, ih]
    have hget : get_scraper (register_scraper d q.1 q.2) name
        = if name = q.1 then some q.2 else get_scraper d name :=
      dict_get_dict_set d q.1 name q.2
    have hlast : last_registered (q :: rest) name
        = (last_registered rest name).or
            (if name = q.1 then some q.2 else none) := by
      unfold last_registered
      rw [List.reverse_cons, List.find?_append]
      by_cases hq : name = q.1
      · have hb : (q.1 == name) = true := by simp [hq]
        cases hfind : rest.reverse.find? (fun p => p.1 == name) with
        | none => simp [List.find?, hb, hq, hfind, Option.or]
        | some r => simp [List.find?, hb, hq, hfind, Option.or]
      · have hb : (q.1 == name) = false := by simp [Ne.symm hq]
        cases hfind : rest.reverse.find? (fun p => p.1 == name) with
        | none => simp [List.find?, hb, hq, hfind, Option.or]
        | some r => simp [List.find?, hb, hq, hfind, Option.or]
    rw [hget, hlast]
    cases hl : last_registered rest name with
    | none => cases hq : (decide (name = q.1)) with
      | true =>
        have : name = q.1 := of_decide_eq_true hq
        simp [Option.or, this]
      | false =>
        have : ¬ name = q.1 := of_decide_eq_false hq
        simp [Option.or, this]
    | some w => simp [Option.or]

lemma get_scraper_apply {F : Type} (regs : List (String × F)) (name : String) :
    get_scraper (apply_registrations regs) name = last_registered regs name := by
  unfold apply_registrations
  rw [get_scraper_foldl]
  simp [get_scraper, dict_get, List.find?, Option.or_none]

/-! ## Claim theorems: registry (C8) -/

/-- Claim C8: for every sequence of `registerScraper` calls, `getScraper`
returns exactly the function most recently registered under a name (last
registration wins, with no duplicate-name error), the name is then a member
of `listAvailableScrapers()`, and `getScraper` of a never-registered name
returns absent. -/
theorem claim_C8_register_get_scraper {F : Type} (regs : List (String × F))
    (name name2 : String) (v : F)
    (hlast : last_registered regs name = some v)
    (hnever : name2 ∉ regs.map Prod.fst) :
    get_scraper (apply_registrations regs) name = some v ∧
    name ∈ list_available_scrapers (apply_registrations regs) ∧
    get_scraper (apply_registrations regs) name2 = none := by
  have hget : get_scraper (apply_registrations regs) name = some v := by
    rw [get_scraper_apply]
    exact hlast
  refine ⟨hget, ?_, ?_⟩
  · unfold get_scraper dict_get at hget
    rcases Option.map_eq_some'.mp hget with ⟨pair, hfind, hsnd⟩
    have hmem := List.mem_of_find?_eq_some hfind
    have hkey : pair.1 = name := beq_iff_eq.mp (by simpa using List.find?_some hfind)
    exact List.mem_map.mpr ⟨pair, hmem, hkey⟩
  · rw [get_scraper_apply]
    unfold last_registered
    have hn : regs.reverse.find? (fun p => p.1 == name2) = none := by
      rw [List.find?_eq_none]
      intro p hp hb
      exact hnever (List.mem_map.mpr
        ⟨p, List.mem_reverse.mp hp, beq_iff_eq.mp (by simpa using hb)⟩)
    rw [hn]
    rfl

/-- Witness for C8 at a concrete registration sequence: `a` is registered
twice (values 1 then 3), `b` once, `c` never. -/
theorem claim_C8_register_get_scraper_witness :
    get_scraper (apply_registrations [("a", 1), ("b", 2), ("a", 3)]) "a" = some 3 ∧
    "a" ∈ list_available_scrapers (apply_registrations [("a", 1), ("b", 2), ("a", 3)]) ∧
    get_scraper (apply_registrations [("a", 1), ("b", 2), ("a", 3)]) "c" = none :=
  claim_C8_register_get_scraper [("a", 1), ("b", 2), ("a", 3)] "a" "c" 3
    (by rfl) (by decide)

/-! ## Claim theorems: scrape_source guard clauses (C4, C5, C7) -/

/-- Claim C4: for every source id not in the store, `scrapeSource` raises
the not-found `ValueError` and leaves the store unchanged (so no
`ScrapingJob` is created and no scraper module runs). -/
theorem claim_C4_scrape_source_not_found {β : Type} (reg : Registry (ScraperFn β))
    (db : Store) (source_id : Nat)
    (h : find_source db source_id = none) :
    scrape_source reg db source_id
      = (.error (.valueError (source_not_found_msg source_id)), db) := by
  unfold scrape_source
  rw [h]

/-- Fixture: a store with no rows at all. -/
def empty_store : Store :=
  { sources := [], scraped_data := [], processed_data := [], scraping_jobs := [], clock := 0 }

/-- Witness for C4: scraping source 5 in an empty store. -/
theorem claim_C4_scrape_source_not_found_witness :
    scrape_source ([] : Registry (ScraperFn Unit)) empty_store 5
      = (.error (.valueError (source_not_found_msg 5)), empty_store) :=
  claim_C4_scrape_source_not_found ([] : Registry (ScraperFn Unit)) empty_store 5 rfl

/-- Claim C5: for every existing source whose `isActive` flag is false,
`scrapeSource` raises the inactive-source `ValueError` before any job is
created or module invoked, leaving the store unchanged. -/
theorem claim_C5_scrape_source_inactive {β : Type} (reg : Registry (ScraperFn β))
    (db : Store) (source_id : Nat) (src : Source)
    (h : find_source db source_id = some src)
    (hinactive : src.is_active = false) :
    scrape_source reg db source_id
      = (.error (.valueError (source_inactive_msg src.name)), db) := by
  unfold scrape_source
  rw [h]
  simp [hinactive]

/-- Fixture: a store holding one inactive source. -/
def inactive_source : Source :=
  { id := 1, name := "s1", url := "u", source_type := "t", module_name := "m",
    is_active := false, last_scraped_at := none }

/-- Fixture store for the C5 witness. -/
def inactive_store : Store :=
  { sources := [inactive_source], scraped_data := [], processed_data := [],
    scraping_jobs := [], clock := 0 }

/-- Witness for C5: scraping the inactive source 1. -/
theorem claim_C5_scrape_source_inactive_witness :
    scrape_source ([] : Registry (ScraperFn Unit)) inactive_store 1
      = (.error (.valueError (source_inactive_msg "s1")), inactive_store) :=
  claim_C5_scrape_source_inactive ([] : Registry (ScraperFn Unit)) inactive_store 1
    inactive_source rfl rfl

/-- Claim C7: whenever a dispatch (`scrapeSource` or `analyzeData`) resolves
a module name with no registered handler, the raised error's message
contains the rendered list of currently registered module names of the
corresponding registry (here: as a suffix of the message text). -/
theorem claim_C7_unsupported_module_lists_available {β α : Type}
    (reg_s : Registry (ScraperFn β)) (reg_a : Registry (AnalyzerFn α))
    (db : Store) (sid pid : Nat) (src : Source) (row : ProcessedData)
    (o : Option String)
    (hs : find_source db sid = some src)
    (ha : src.is_active = true)
    (hns : get_scraper reg_s src.module_name = none)
    (hr : find_processed db pid = some row)
    (hna : get_analyzer_opt reg_a (resolve_module_name o row.processor_module) = none) :
    scrape_source reg_s db sid
      = (.error (.valueError (no_scraper_msg src.module_name
          (list_available_scrapers reg_s))), db) ∧
    analyze_data reg_a db pid o
      = (.error (.valueError (no_analyzer_msg
          (resolve_module_name o row.processor_module)
          (list_available_analyzers reg_a))), db) ∧
    (py_list_repr (list_available_scrapers reg_s)).data
      <:+ (no_scraper_msg src.module_name (list_available_scrapers reg_s)).data ∧
    (py_list_repr (list_available_analyzers reg_a)).data
      <:+ (no_analyzer_msg (resolve_module_name o row.processor_module)
            (list_available_analyzers reg_a)).data := by
  refine ⟨?_, ?_, ?_, ?_⟩
  · unfold scrape_source
    rw [hs]
    simp [ha, hns]
  · unfold analyze_data
    rw [hr]
    simp only []
    rw [hna]
  · exact ⟨("No scraper registered for module '" ++ src.module_name
      ++ "'. Available: ").data, (String.data_append _ _).symm⟩
  · exact ⟨("No analyzer registered for module '"
      ++ py_opt_str (resolve_module_name o row.processor_module)
      ++ "'. Available: ").data, (String.data_append _ _).symm⟩

/-- Fixture: an active source bound to the unregistered module `m`. -/
def active_source_m : Source :=
  { id := 1, name := "s1", url := "u", source_type := "t", module_name := "m",
    is_active := true, last_scraped_at := none }

/-- Fixture: a processed row whose producing module `a` is unregistered. -/
def row_module_a : ProcessedData :=
  { id := 1, scraped_data_id := 1, title := none, content_text := none,
    summary := none, data_metadata := none, processor_module := some "a",
    processed_at := 0 }

/-- Fixture store for the C7 witness. -/
def unsupported_store : Store :=
  { sources := [active_source_m], scraped_data := [], processed_data := [row_module_a],
    scraping_jobs := [], clock := 0 }

/-- Witness for C7: empty registries, so both dispatches fail with messages
ending in the rendered (empty) list of registered names. -/
theorem claim_C7_unsupported_module_lists_available_witness :
    scrape_source ([] : Registry (ScraperFn Unit)) unsupported_store 1
      = (.error (.valueError (no_scraper_msg "m"
          (list_available_scrapers ([] : Registry (ScraperFn Unit))))), unsupported_store) ∧
    analyze_data ([] : Registry (AnalyzerFn Unit)) unsupported_store 1 none
      = (.error (.valueError (no_analyzer_msg (resolve_module_name none (some "a"))
          (list_available_analyzers ([] : Registry (AnalyzerFn Unit))))), unsupported_store) ∧
    (py_list_repr (list_available_scrapers ([] : Registry (ScraperFn Unit)))).data
      <:+ (no_scraper_msg "m"
            (list_available_scrapers ([] : Registry (ScraperFn Unit)))).data ∧
    (py_list_repr (list_available_analyzers ([] : Registry (AnalyzerFn Unit)))).data
      <:+ (no_analyzer_msg (resolve_module_name none (some "a"))
            (list_available_analyzers ([] : Registry (AnalyzerFn Unit)))).data :=
  claim_C7_unsupported_module_lists_available
    ([] : Registry (ScraperFn Unit)) ([] : Registry (AnalyzerFn Unit))
    unsupported_store 1 1 active_source_m row_module_a none rfl rfl rfl rfl rfl

/-! ## Claim theorems: analyzer module selection (C6, C10) -/

/-- Fixture: an analyzer registered under the name `m`; returns 1. -/
def analyzer_m : AnalyzerFn Nat := fun db _ => (.ok 1, db)

/-- Fixture: an analyzer registered under the empty-string name; returns 2. -/
def analyzer_empty_name : AnalyzerFn Nat := fun db _ => (.ok 2, db)

/-- Fixture registry holding analyzers for both `m` and `""`. -/
def override_registry : Registry (AnalyzerFn Nat) :=
  register_analyzer (register_analyzer [] "m" analyzer_m) "" analyzer_empty_name

/-- Fixture: a processed row recorded as produced by module `m`. -/
def row_module_m : ProcessedData :=
  { id := 1, scraped_data_id := 1, title := none, content_text := none,
    summary := none, data_metadata := none, processor_module := some "m",
    processed_at := 0 }

/-- Fixture store for the C6 theorems. -/
def override_store : Store :=
  { sources := [], scraped_data := [], processed_data := [row_module_m],
    scraping_jobs := [], clock := 0 }

/-- Counterexample to C6 as stated: the caller supplies the explicit
override `""` (for which an analyzer is registered, returning 2), yet
`analyzeData` dispatches on the row's `processorModule` `m` instead
(returning 1), because the code tests Python truthiness, not presence. -/
theorem claim_C6_counterexample :
    analyze_data override_registry override_store 1 (some "")
      = (.ok 1, override_store) ∧
    resolve_module_name (some "") (some "m") ≠ some "" := by
  exact ⟨rfl, by decide⟩

/-- Claim C6 (amended): `analyzeData` dispatches on
`resolve_module_name override processorModule`; a supplied *non-empty*
override wins, while an absent override — and likewise a supplied
empty-string override, by Python truthiness — falls back to the row's
recorded `processorModule`. -/
theorem claim_C6_analyze_data_module_resolution {α : Type}
    (reg : Registry (AnalyzerFn α)) (db : Store) (pid : Nat)
    (override : Option String) (row : ProcessedData) (f : AnalyzerFn α) (ov : String)
    (hrow : find_processed db pid = some row)
    (hres : get_analyzer_opt reg (resolve_module_name override row.processor_module)
      = some f)
    (hov : ov ≠ "") :
    analyze_data reg db pid override = f db pid ∧
    resolve_module_name (some ov) row.processor_module = some ov ∧
    resolve_module_name none row.processor_module = row.processor_module ∧
    resolve_module_name (some "") row.processor_module = row.processor_module := by
  refine ⟨?_, ?_, rfl, rfl⟩
  · unfold analyze_data
    rw [hrow]
    simp only []
    rw [hres]
  · have hne : ov.isEmpty = false := by
      cases h : ov.isEmpty
      · rfl
      · exact absurd ((String.isEmpty_iff ov).mp h) hov
    simp [resolve_module_name, py_truthy_opt_str, hne]

/-- Witness for the amended C6: with no override the row's module `m` is
used, and the characterization holds for the non-empty override `x`. -/
theorem claim_C6_analyze_data_module_resolution_witness :
    analyze_data override_registry override_store 1 none
      = analyzer_m override_store 1 ∧
    resolve_module_name (some "x") row_module_m.processor_module = some "x" ∧
    resolve_module_name none row_module_m.processor_module
      = row_module_m.processor_module ∧
    resolve_module_name (some "") row_module_m.processor_module
      = row_module_m.processor_module :=
  claim_C6_analyze_data_module_resolution override_registry override_store 1
    none row_module_m analyzer_m "x" rfl rfl (by decide)

/-- Claim C10: a `ProcessedData` row whose nullable `processorModule` is
unset, analyzed without an override, yields the unsupported-module style
`ValueError` (rendering the Python `None`), not the not-found error, and no
analyzer runs (the store is unchanged). -/
theorem claim_C10_null_processor_module {α : Type} (reg : Registry (AnalyzerFn α))
    (db : Store) (pid : Nat) (row : ProcessedData)
    (hrow : find_processed db pid = some row)
    (hnull : row.processor_module = none) :
    analyze_data reg db pid none
      = (.error (.valueError (no_analyzer_msg none (list_available_analyzers reg))), db) ∧
    no_analyzer_msg none (list_available_analyzers reg) ≠ processed_not_found_msg pid := by
  constructor
  · unfold analyze_data
    rw [hrow]
    simp only []
    rw [hnull]
    rfl
  · intro h
    have hd := congrArg String.data h
    unfold no_analyzer_msg processed_not_found_msg py_opt_str at hd
    simp only [String.data_append] at hd
    simp at hd

/-- Fixture: a processed row with `processor_module` NULL. -/
def row_null_module : ProcessedData :=
  { id := 2, scraped_data_id := 1, title := none, content_text := none,
    summary := none, data_metadata := none, processor_module := none,
    processed_at := 0 }

/-- Fixture store for the C10 witness. -/
def null_module_store : Store :=
  { sources := [], scraped_data := [], processed_data := [row_null_module],
    scraping_jobs := [], clock := 0 }

/-- Witness for C10 at the concrete row 2 with a NULL `processor_module`. -/
theorem claim_C10_null_processor_module_witness :
    analyze_data ([] : Registry (AnalyzerFn Unit)) null_module_store 2 none
      = (.error (.valueError (no_analyzer_msg none
          (list_available_analyzers ([] : Registry (AnalyzerFn Unit))))),
         null_module_store) ∧
    no_analyzer_msg none (list_available_analyzers ([] : Registry (AnalyzerFn Unit)))
      ≠ processed_not_found_msg 2 :=
  claim_C10_null_processor_module ([] : Registry (AnalyzerFn Unit))
    null_module_store 2 row_null_module rfl rfl

/-! ## Claim theorems: bulk_analyze (C2, C9, C3) -/

/-- Fixture: a store holding one active source and no data at all. -/
def lone_source_store : Store :=
  { sources := [active_source_m], scraped_data := [], processed_data := [],
    scraping_jobs := [], clock := 0 }

/-- Counterexample to C2 as stated: on a source with zero `ProcessedData`
rows, `bulkAnalyze` does return successfully with `analyzedCount = 0`, but
the returned dict has *no* `errorCount` key at all, so "errorCount field is
0" is false. -/
theorem claim_C2_counterexample :
    bulk_analyze ([] : Registry (AnalyzerFn Nat)) lone_source_store 1 none
      = (.ok (.empty_summary true "No processed data found for this source" 0),
         lone_source_store) ∧
    BulkSummary.error_count_field
      ((BulkSummary.empty_summary true "No processed data found for this source" 0 :
        BulkSummary Nat)) ≠ some 0 :=
  ⟨rfl, by decide⟩

/-- Claim C2 (amended): for every existing source with zero `ProcessedData`
rows, `bulkAnalyze` does not raise and returns the zero-count success
summary (`success=True`, `analyzedCount=0`) — a dict that carries no
`errorCount` key — leaving the store unchanged. -/
theorem claim_C2_bulk_analyze_empty {α : Type} (reg : Registry (AnalyzerFn α))
    (db : Store) (source_id : Nat) (src : Source) (override : Option String)
    (hsrc : find_source db source_id = some src)
    (hempty : processed_items_for_source db source_id = []) :
    bulk_analyze reg db source_id override
      = (.ok (.empty_summary true "No processed data found for this source" 0), db) := by
  unfold bulk_analyze
  rw [hsrc]
  simp only []
  rw [hempty]
  rfl

/-- Witness for the amended C2 on the concrete empty-data store. -/
theorem claim_C2_bulk_analyze_empty_witness :
    bulk_analyze ([] : Registry (AnalyzerFn Nat)) lone_source_store 1 none
      = (.ok (.empty_summary true "No processed data found for this source" 0),
         lone_source_store) :=
  claim_C2_bulk_analyze_empty ([] : Registry (AnalyzerFn Nat)) lone_source_store 1
    active_source_m none rfl rfl

lemma bulk_loop_length {α : Type} (reg : Registry (AnalyzerFn α)) (o : Option String) :
    ∀ (items : List ProcessedData) (db : Store),
      (bulk_loop reg o items db).1.length + (bulk_loop reg o items db).2.1.length
        = items.length := by
  intro items
  induction items with
  | nil => intro db; rfl
  | cons item rest ih =>
    intro db
    rcases h : analyze_data reg db item.id o with ⟨r, db1⟩
    cases r with
    | ok v =>
      have hrec := ih db1
      simp [bulk_loop, h]
      omega
    | error e =>
      cases e with
      | valueError msg =>
        have hrec := ih db1
        simp [bulk_loop, h]
        omega

/-- Claim C9: for every existing source with at least one `ProcessedData`
row, `bulkAnalyze` returns a full summary with `success = True` and
`totalItems = analyzedCount + errorCount` — even when every per-item call
raises — so the `success` flag does not indicate absence of per-item
errors. -/
theorem claim_C9_bulk_analyze_totals {α : Type} (reg : Registry (AnalyzerFn α))
    (db : Store) (source_id : Nat) (src : Source) (override : Option String)
    (hsrc : find_source db source_id = some src)
    (hne : processed_items_for_source db source_id ≠ []) :
    bulk_analyze reg db source_id override
      = (.ok (.full_summary true source_id src.name
          (processed_items_for_source db source_id).length
          (bulk_loop reg override (processed_items_for_source db source_id) db).1.length
          (bulk_loop reg override (processed_items_for_source db source_id) db).2.1.length
          (bulk_loop reg override (processed_items_for_source db source_id) db).1
          (bulk_loop reg override (processed_items_for_source db source_id) db).2.1),
         (bulk_loop reg override (processed_items_for_source db source_id) db).2.2) ∧
    (bulk_loop reg override (processed_items_for_source db source_id) db).1.length
      + (bulk_loop reg override (processed_items_for_source db source_id) db).2.1.length
      = (processed_items_for_source db source_id).length := by
  constructor
  · have hb : (processed_items_for_source db source_id).isEmpty = false := by
      cases hi : (processed_items_for_source db source_id).isEmpty
      · rfl
      · exact absurd (List.isEmpty_iff.mp hi) hne
    unfold bulk_analyze
    rw [hsrc]
    simp only []
    rw [hb]
    rfl
  · exact bulk_loop_length reg override _ db

/-- Fixture: an analyzer that always raises `ValueError("boom")`. -/
def failing_analyzer : AnalyzerFn Nat := fun db _ => (.error (.valueError "boom"), db)

/-- Fixture registry for the extreme all-failures C9 witness. -/
def failing_registry : Registry (AnalyzerFn Nat) :=
  register_analyzer [] "m" failing_analyzer

/-- Fixture: the `ScrapedData` parent row for source 1. -/
def scraped_row_1 : ScrapedData :=
  { id := 1, source_id := 1, url := "u", raw_html := none, scraped_at := 0,
    status_code := 200, content_type := "text/html" }

/-- Fixture: a second processed row produced by module `m`. -/
def row_module_m2 : ProcessedData := { row_module_m with id := 2 }

/-- Fixture store with one source and two processed rows, both of module
`m`. -/
def two_rows_store : Store :=
  { sources := [active_source_m], scraped_data := [scraped_row_1],
    processed_data := [row_module_m, row_module_m2], scraping_jobs := [], clock := 0 }

/-- Witness for C9 in the extreme case: both per-item calls raise, and the
summary still has `success = True` with `totalItems = 0 + 2`. -/
theorem claim_C9_bulk_analyze_totals_witness :
    bulk_analyze failing_registry two_rows_store 1 none
      = (.ok (.full_summary true 1 "s1"
          (processed_items_for_source two_rows_store 1).length
          (bulk_loop failing_registry none
            (processed_items_for_source two_rows_store 1) two_rows_store).1.length
          (bulk_loop failing_registry none
            (processed_items_for_source two_rows_store 1) two_rows_store).2.1.length
          (bulk_loop failing_registry none
            (processed_items_for_source two_rows_store 1) two_rows_store).1
          (bulk_loop failing_registry none
            (processed_items_for_source two_rows_store 1) two_rows_store).2.1),
         (bulk_loop failing_registry none
           (processed_items_for_source two_rows_store 1) two_rows_store).2.2) ∧
    (bulk_loop failing_registry none
      (processed_items_for_source two_rows_store 1) two_rows_store).1.length
      + (bulk_loop failing_registry none
          (processed_items_for_source two_rows_store 1) two_rows_store).2.1.length
      = (processed_items_for_source two_rows_store 1).length :=
  claim_C9_bulk_analyze_totals failing_registry two_rows_store 1 active_source_m none
    rfl (by decide)

lemma map_const_of_length_one {γ δ : Type} (l : List γ) (c : δ) (h : l.length = 1) :
    l.map (fun _ => c) = [c] := by
  cases l with
  | nil => simp at h
  | cons a t =>
    cases t with
    | nil => rfl
    | cons b t2 => simp at h

lemma bulk_loop_one_module {α : Type} (reg : Registry (AnalyzerFn α)) (db : Store)
    (m : String) (f : AnalyzerFn α) (g : Nat → α) (bad_id : Nat) (emsg : String)
    (hget : get_analyzer reg m = some f)
    (hfail : ∀ s : Store, f s bad_id = (.error (.valueError emsg), s))
    (hok : ∀ (s : Store) (i : Nat), i ≠ bad_id → f s i = (.ok (g i), s)) :
    ∀ items : List ProcessedData,
      (∀ item ∈ items,
        find_processed db item.id = some item ∧ item.processor_module = some m) →
      bulk_loop reg none items db
        = ((items.filter (fun p => !(p.id == bad_id))).map
             (fun p => (⟨p.id, g p.id⟩ : BulkItemResult α)),
           (items.filter (fun p => p.id == bad_id)).map
             (fun _ => (⟨bad_id, emsg⟩ : BulkItemError)),
           db) := by
  intro items
  induction items with
  | nil => intro _; rfl
  | cons item rest ih =>
    intro hprops
    obtain ⟨hfind, hmod⟩ := hprops item (List.mem_cons_self item rest)
    have hrest := fun it hit => hprops it (List.mem_cons_of_mem item hit)
    have hstep : analyze_data reg db item.id none = f db item.id := by
      unfold analyze_data
      rw [hfind]
      simp only []
      rw [show resolve_module_name none item.processor_module
            = item.processor_module from rfl, hmod]
      simp only [get_analyzer_opt]
      rw [hget]
    by_cases hb : item.id = bad_id
    · have hcall : analyze_data reg db item.id none
          = (.error (.valueError emsg), db) := by
        rw [hstep, hb, hfail]
      rw [hb] at hcall
      simp [bulk_loop, hcall, ih hrest, List.filter, hb]
    · have hbeq : (item.id == bad_id) = false := by simp [hb]
      have hcall : analyze_data reg db item.id none = (.ok (g item.id), db) := by
        rw [hstep, hok db item.id hb]
      simp [bulk_loop, hcall, ih hrest, List.filter, hbeq]

/-- Claim C3: over N ≥ 1 items where exactly one per-item analyzer call
raises and the rest succeed, `bulkAnalyze` does not raise and returns
`totalItems = N`, `analyzedCount = N-1`, `errorCount = 1`, with the failing
item's id and error message in `errors`. -/
theorem claim_C3_bulk_analyze_one_failure {α : Type} (reg : Registry (AnalyzerFn α))
    (db : Store) (source_id : Nat) (src : Source) (m : String) (f : AnalyzerFn α)
    (g : Nat → α) (bad_id : Nat) (emsg : String)
    (hsrc : find_source db source_id = some src)
    (hne : processed_items_for_source db source_id ≠ [])
    (hprops : ∀ item ∈ processed_items_for_source db source_id,
      find_processed db item.id = some item ∧ item.processor_module = some m)
    (hget : get_analyzer reg m = some f)
    (hfail : ∀ s : Store, f s bad_id = (.error (.valueError emsg), s))
    (hok : ∀ (s : Store) (i : Nat), i ≠ bad_id → f s i = (.ok (g i), s))
    (hcount : ((processed_items_for_source db source_id).filter
      (fun p => p.id == bad_id)).length = 1) :
    bulk_analyze reg db source_id none
      = (.ok (.full_summary true source_id src.name
          (processed_items_for_source db source_id).length
          ((processed_items_for_source db source_id).length - 1) 1
          (((processed_items_for_source db source_id).filter
              (fun p => !(p.id == bad_id))).map
            (fun p => (⟨p.id, g p.id⟩ : BulkItemResult α)))
          [⟨bad_id, emsg⟩]), db) := by
  have hb : (processed_items_for_source db source_id).isEmpty = false := by
    cases hi : (processed_items_for_source db source_id).isEmpty
    · rfl
    · exact absurd (List.isEmpty_iff.mp hi) hne
  have hloop := bulk_loop_one_module reg db m f g bad_id emsg hget hfail hok
    (processed_items_for_source db source_id) hprops
  have herr : ((processed_items_for_source db source_id).filter
      (fun p => p.id == bad_id)).map (fun _ => (⟨bad_id, emsg⟩ : BulkItemError))
      = [⟨bad_id, emsg⟩] :=
    map_const_of_length_one _ _ hcount
  have hlen : ((processed_items_for_source db source_id).filter
      (fun p => !(p.id == bad_id))).length
      = (processed_items_for_source db source_id).length - 1 := by
    have hsplit := @List.length_eq_length_filter_add ProcessedData
      (processed_items_for_source db source_id) (fun p => p.id == bad_id)
    omega
  unfold bulk_analyze
  rw [hsrc]
  simp only []
  rw [hb, if_neg Bool.false_ne_true, hloop]
  simp [herr, hlen]

/-- Fixture: an analyzer that raises `ValueError("boom")` exactly on row 2
and returns 7 on every other row. -/
def one_fail_analyzer : AnalyzerFn Nat := fun s i =>
  if i = 2 then (.error (.valueError "boom"), s) else (.ok 7, s)

/-- Fixture registry for the C3 witness. -/
def one_fail_registry : Registry (AnalyzerFn Nat) :=
  register_analyzer [] "m" one_fail_analyzer

/-- Fixture: a third processed row produced by module `m`. -/
def row_module_m3 : ProcessedData := { row_module_m with id := 3 }

/-- Fixture store with one source and three processed rows of module `m`. -/
def three_rows_store : Store :=
  { sources := [active_source_m], scraped_data := [scraped_row_1],
    processed_data := [row_module_m, row_module_m2, row_module_m3],
    scraping_jobs := [], clock := 0 }

/-- Witness for C3: three rows, the analyzer raises exactly on row 2;
the summary reports 3 total, 2 analyzed, 1 error, with its id and message. -/
theorem claim_C3_bulk_analyze_one_failure_witness :
    bulk_analyze one_fail_registry three_rows_store 1 none
      = (.ok (.full_summary true 1 active_source_m.name
          (processed_items_for_source three_rows_store 1).length
          ((processed_items_for_source three_rows_store 1).length - 1) 1
          (((processed_items_for_source three_rows_store 1).filter
              (fun p => !(p.id == 2))).map
            (fun p => (⟨p.id, 7⟩ : BulkItemResult Nat)))
          [⟨2, "boom"⟩]), three_rows_store) :=
  claim_C3_bulk_analyze_one_failure one_fail_registry three_rows_store 1
    active_source_m "m" one_fail_analyzer (fun _ => 7) 2 "boom"
    rfl (by decide) (by decide) rfl (fun _ => rfl)
    (fun s i hi => by simp [one_fail_analyzer, hi]) (by decide)

/-! ## Claim theorems: the ScrapingJob lifecycle (C1) -/

/-- Fixture: a registered scraper that touches nothing and returns. -/
def noop_scraper : ScraperFn Unit := fun db _ => (.ok (), db)

/-- Fixture registry holding only the no-op scraper under module `m`. -/
def noop_registry : Registry (ScraperFn Unit) :=
  register_scraper [] "m" noop_scraper

/-- Counterexample to C1 as stated: a `scrapeSource` dispatch that returns
normally after which the store holds *no* `ScrapingJob` at all — the
orchestrator itself never creates one (job creation lives inside the
scraper module, and this registered module writes none). -/
theorem claim_C1_counterexample :
    scrape_source noop_registry lone_source_store 1 = (.ok (), lone_source_store) ∧
    (scrape_source noop_registry lone_source_store 1).2.scraping_jobs = [] :=
  ⟨rfl, rfl⟩

lemma le_foldr_max (l : List Nat) : ∀ x ∈ l, x ≤ l.foldr Nat.max 0 := by
  induction l with
  | nil => intro x hx; cases hx
  | cons a t ih =>
    intro x hx
    rcases List.mem_cons.mp hx with h | h
    · subst h
      exact Nat.le_max_left _ _
    · exact le_trans (ih x h) (Nat.le_max_right _ _)

lemma next_job_id_fresh (db : Store) : ∀ j ∈ db.scraping_jobs, j.id ≠ next_job_id db := by
  intro j hj
  have hle : j.id ≤ List.foldr Nat.max 0 (db.scraping_jobs.map ScrapingJob.id) :=
    le_foldr_max _ j.id (List.mem_map_of_mem ScrapingJob.id hj)
  unfold next_job_id
  omega

lemma map_update_append_fresh (jobs : List ScrapingJob) (j : ScrapingJob)
    (f : ScrapingJob → ScrapingJob) (hfresh : ∀ k ∈ jobs, k.id ≠ j.id) :
    (jobs ++ [j]).map (fun k => if k.id = j.id then f k else k) = jobs ++ [f j] := by
  rw [List.map_append]
  congr 1
  · calc jobs.map (fun k => if k.id = j.id then f k else k)
        = jobs.map id := List.map_congr_left (fun k hk => by
          rw [if_neg (hfresh k hk)]
          rfl)
      _ = jobs := List.map_id jobs
  · simp

/-- Claim C1 (amended): the `ScrapingJob` lifecycle is implemented by the
scraper module (`scrape_and_save`), not by the orchestrator: for an existing
source the module creates exactly one job, in state `running` with a start
timestamp and no completion timestamp; on normal return that job — and no
other — ends `completed` with a completion timestamp and the record count;
on a raised exception it ends `failed` with a completion timestamp and the
exception message.  (`scrape_source` itself adds no job; see the
counterexample.) -/
theorem claim_C1_scrape_and_save_job_lifecycle (fetch : FetchOutcome) (db : Store)
    (source_id : Nat) (src : Source)
    (hsrc : find_source db source_id = some src) :
    (start_job db source_id).status = "running" ∧
    (start_job db source_id).started_at = db.clock ∧
    (start_job db source_id).completed_at = none ∧
    (add_job db (start_job db source_id)).scraping_jobs
      = db.scraping_jobs ++ [start_job db source_id] ∧
    (match fetch with
     | .ok (raw_html, courses_data) =>
        (scrape_and_save fetch db source_id).1
          = .ok { success := true
                  courses_count := courses_data.length
                  processed_records := courses_data.length
                  scraped_data_id := next_scraped_id (add_job db (start_job db source_id))
                  job_id := (start_job db source_id).id } ∧
        (scrape_and_save fetch db source_id).2.scraping_jobs
          = db.scraping_jobs
            ++ [{ start_job db source_id with
                  status := "completed"
                  completed_at := some (save_to_generic_tables
                    (add_job db (start_job db source_id)) source_id
                    courses_data raw_html).2.clock
                  records_processed := courses_data.length }]
     | .error e =>
        (scrape_and_save fetch db source_id).1 = .error (.valueError e) ∧
        (scrape_and_save fetch db source_id).2.scraping_jobs
          = db.scraping_jobs
            ++ [{ start_job db source_id with
                  status := "failed"
                  completed_at := some (add_job db (start_job db source_id)).clock
                  error_message := some e }]) := by
  refine ⟨rfl, rfl, rfl, rfl, ?_⟩
  cases fetch with
  | ok pr =>
    obtain ⟨raw_html, courses_data⟩ := pr
    refine ⟨?_, ?_⟩
    · unfold scrape_and_save
      rw [hsrc]
      rfl
    · have hexp : (scrape_and_save (.ok (raw_html, courses_data)) db source_id).2.scraping_jobs
          = ((db.scraping_jobs ++ [start_job db source_id]).map
              (fun j => if j.id = (start_job db source_id).id
                then { j with
                       status := "completed"
                       completed_at := some (save_to_generic_tables
                         (add_job db (start_job db source_id)) source_id
                         courses_data raw_html).2.clock
                       records_processed := (save_to_generic_tables
                         (add_job db (start_job db source_id)) source_id
                         courses_data raw_html).1.processed_records }
                else j)) := by
        unfold scrape_and_save
        rw [hsrc]
        rfl
      rw [hexp, map_update_append_fresh _ _ _
        (fun k hk => next_job_id_fresh db k hk)]
      rfl
  | error e =>
    refine ⟨?_, ?_⟩
    · unfold scrape_and_save
      rw [hsrc]
    · have hexp : (scrape_and_save (.error e) db source_id).2.scraping_jobs
          = ((db.scraping_jobs ++ [start_job db source_id]).map
              (fun j => if j.id = (start_job db source_id).id
                then { j with
                       status := "failed"
                       completed_at := some (add_job db (start_job db source_id)).clock
                       error_message := some e }
                else j)) := by
        unfold scrape_and_save
        rw [hsrc]
        rfl
      rw [hexp, map_update_append_fresh _ _ _
        (fun k hk => next_job_id_fresh db k hk)]

/-- Fixture: one parsed course dict. -/
def sample_course : Course :=
  { title := "t", description := "d", url := none, course_id := none,
    language := none, status := none }

/-- Witness for the amended C1 on a concrete successful fetch of one
course: the single created job ends `completed` with the record count 1. -/
theorem claim_C1_scrape_and_save_job_lifecycle_witness :
    (start_job lone_source_store 1).status = "running" ∧
    (start_job lone_source_store 1).started_at = lone_source_store.clock ∧
    (start_job lone_source_store 1).completed_at = none ∧
    (add_job lone_source_store (start_job lone_source_store 1)).scraping_jobs
      = lone_source_store.scraping_jobs ++ [start_job lone_source_store 1] ∧
    ((scrape_and_save (.ok ("html", [sample_course])) lone_source_store 1).1
        = .ok { success := true, courses_count := 1, processed_records := 1,
                scraped_data_id := 1, job_id := 1 } ∧
     (scrape_and_save (.ok ("html", [sample_course])) lone_source_store 1).2.scraping_jobs
        = [{ id := 1, job_type := "openhpi_public_scrape", status := "completed",
             started_at := 0, completed_at := some 4, records_processed := 1,
             error_message := none, job_metadata_source_id := some 1 }]) :=
  claim_C1_scrape_and_save_job_lifecycle (.ok ("html", [sample_course]))
    lone_source_store 1 active_source_m rfl

end AutomateAnything
